import Mathlib

/-!
Verification development for the tauri-plugin-fs front-end bindings
(dist-js/index.js, v2 API) and, where the trusted Rust backend is not part
of the source corpus, models of the backend taken from the specification.

The embedding mirrors the JavaScript source: each operation first runs the
guard `path instanceof URL && path.protocol !== "file:"` and either throws
a TypeError or performs one backend `invoke` call. Option objects, byte
payloads and length arguments are forwarded opaquely by the source and do
not affect control flow, so they are elided from the embedding; the
`InvokeCall` record keeps the command name and the stringified path
arguments, which is everything the source computes before the backend
takes over.
-/

namespace TauriFs

/-- A front-end path argument: a plain string or a URL object. A URL is kept
as its protocol (with the trailing colon, e.g. "file:") together with the
rest of its serialization; URL.toString() is their concatenation. -/
inductive PathLike where
  | str (s : String)
  | url (protocol : String) (rest : String)
deriving DecidableEq, Repr

/-- JS expression `path instanceof URL ? path.toString() : path`. -/
def PathLike.toStr : PathLike → String
  | .str s => s
  | .url protocol rest => protocol ++ rest

/-- The guard `path instanceof URL && path.protocol !== "file:"` that each
operation evaluates before invoking the backend. -/
def PathLike.nonFileUrl : PathLike → Bool
  | .str _ => false
  | .url protocol _ => protocol != "file:"

/-- A JavaScript exception surfaced by the bindings before any backend call. -/
inductive JsError where
  | typeError (msg : String)
deriving DecidableEq, Repr

/-- One invoke call to the Rust backend: the command name and the stringified
path arguments passed to it. -/
structure InvokeCall where
  cmd : String
  args : List String
deriving DecidableEq, Repr

/-- Whether an Except value is an error. -/
def isErr {ε α : Type} : Except ε α → Bool
  | .error _ => true
  | .ok _ => false

/-- JS function create(path, options). -/
def create (path : PathLike) : Except JsError InvokeCall :=
  if path.nonFileUrl then .error (.typeError "Must be a file URL.")
  else .ok { cmd := "plugin:fs|create", args := [path.toStr] }

/-- JS function open(path, options). -/
def open' (path : PathLike) : Except JsError InvokeCall :=
  if path.nonFileUrl then .error (.typeError "Must be a file URL.")
  else .ok { cmd := "plugin:fs|open", args := [path.toStr] }

/-- JS function copyFile(fromPath, toPath, options): both arguments are
checked before the single backend call. -/
def copyFile (fromPath toPath : PathLike) : Except JsError InvokeCall :=
  if fromPath.nonFileUrl || toPath.nonFileUrl then
    .error (.typeError "Must be a file URL.")
  else .ok { cmd := "plugin:fs|copy_file", args := [fromPath.toStr, toPath.toStr] }

/-- JS function mkdir(path, options). -/
def mkdir (path : PathLike) : Except JsError InvokeCall :=
  if path.nonFileUrl then .error (.typeError "Must be a file URL.")
  else .ok { cmd := "plugin:fs|mkdir", args := [path.toStr] }

/-- JS function readDir(path, options). -/
def readDir (path : PathLike) : Except JsError InvokeCall :=
  if path.nonFileUrl then .error (.typeError "Must be a file URL.")
  else .ok { cmd := "plugin:fs|read_dir", args := [path.toStr] }

/-- JS function readFile(path, options). -/
def readFile (path : PathLike) : Except JsError InvokeCall :=
  if path.nonFileUrl then .error (.typeError "Must be a file URL.")
  else .ok { cmd := "plugin:fs|read_file", args := [path.toStr] }

/-- JS function readTextFile(path, options). -/
def readTextFile (path : PathLike) : Except JsError InvokeCall :=
  if path.nonFileUrl then .error (.typeError "Must be a file URL.")
  else .ok { cmd := "plugin:fs|read_text_file", args := [path.toStr] }

/-- JS function remove(path, options). -/
def remove (path : PathLike) : Except JsError InvokeCall :=
  if path.nonFileUrl then .error (.typeError "Must be a file URL.")
  else .ok { cmd := "plugin:fs|remove", args := [path.toStr] }

/-- JS function rename(oldPath, newPath, options): both arguments are checked
before the single backend call. -/
def rename (oldPath newPath : PathLike) : Except JsError InvokeCall :=
  if oldPath.nonFileUrl || newPath.nonFileUrl then
    .error (.typeError "Must be a file URL.")
  else .ok { cmd := "plugin:fs|rename", args := [oldPath.toStr, newPath.toStr] }

/-- JS function stat(path, options): note the source performs no file-URL
check here; the path is stringified and forwarded directly. -/
def stat (path : PathLike) : Except JsError InvokeCall :=
  .ok { cmd := "plugin:fs|stat", args := [path.toStr] }

/-- JS function lstat(path, options): like stat, the source performs no
file-URL check. -/
def lstat (path : PathLike) : Except JsError InvokeCall :=
  .ok { cmd := "plugin:fs|lstat", args := [path.toStr] }

/-- JS function truncate(path, len, options). -/
def truncate (path : PathLike) : Except JsError InvokeCall :=
  if path.nonFileUrl then .error (.typeError "Must be a file URL.")
  else .ok { cmd := "plugin:fs|truncate", args := [path.toStr] }

/-- JS function writeFile(path, data, options). -/
def writeFile (path : PathLike) : Except JsError InvokeCall :=
  if path.nonFileUrl then .error (.typeError "Must be a file URL.")
  else .ok { cmd := "plugin:fs|write_file", args := [path.toStr] }

/-- JS function writeTextFile(path, data, options). -/
def writeTextFile (path : PathLike) : Except JsError InvokeCall :=
  if path.nonFileUrl then .error (.typeError "Must be a file URL.")
  else .ok { cmd := "plugin:fs|write_text_file", args := [path.toStr] }

/-- JS function exists(path, options). -/
def exists' (path : PathLike) : Except JsError InvokeCall :=
  if path.nonFileUrl then .error (.typeError "Must be a file URL.")
  else .ok { cmd := "plugin:fs|exists", args := [path.toStr] }

/-- The path-check loop in watch and watchImmediate: throws at the first
path argument that is a URL with a non-file protocol. -/
def checkWatchPaths : List PathLike → Except JsError Unit
  | [] => .ok ()
  | p :: ps =>
    if p.nonFileUrl then .error (.typeError "Must be a file URL.")
    else checkWatchPaths ps

/-- All single-path operations of the module that end in one backend invoke
call, paired with their names. -/
def pathOps : List (String × (PathLike → Except JsError InvokeCall)) :=
  [("create", create), ("open", open'), ("mkdir", mkdir), ("readDir", readDir),
   ("readFile", readFile), ("readTextFile", readTextFile), ("remove", remove),
   ("stat", stat), ("lstat", lstat), ("truncate", truncate),
   ("writeFile", writeFile), ("writeTextFile", writeTextFile),
   ("exists", exists')]

/-- The single-path operations that do run the file-URL guard: pathOps
without stat and lstat. -/
def checkedPathOps : List (String × (PathLike → Except JsError InvokeCall)) :=
  [("create", create), ("open", open'), ("mkdir", mkdir), ("readDir", readDir),
   ("readFile", readFile), ("readTextFile", readTextFile), ("remove", remove),
   ("truncate", truncate), ("writeFile", writeFile),
   ("writeTextFile", writeTextFile), ("exists", exists')]

/-- Response of the backend read command: the bytes it produced and the
reported count of bytes read. -/
structure ReadResp where
  data : List Nat
  nread : Nat

/-- TypedArray.prototype.set(data) at offset 0: the bytes of data replace the
front of the buffer, the tail keeps its previous contents. -/
def bufferSet (buffer data : List Nat) : List Nat :=
  data ++ buffer.drop data.length

/-- Outcome of FileHandle.read: the resolved value (none models the JS null
EOF marker, some n a numeric result), the buffer after the call, and the
backend commands invoked during the call. -/
structure ReadOutcome where
  ret : Option Nat
  buffer : List Nat
  calls : List String
deriving DecidableEq, Repr

/-- JS method FileHandle.read(buffer): a zero-length buffer short-circuits to
0 with no backend call; otherwise one read invoke is made, the returned bytes
are copied into the buffer, and a reported count of 0 becomes the null EOF
marker. resp gives the backend response for a given rid and requested
length. -/
def FileHandle.read (resp : Nat → Nat → ReadResp) (rid : Nat)
    (buffer : List Nat) : ReadOutcome :=
  if buffer.length = 0 then
    { ret := some 0, buffer := buffer, calls := [] }
  else
    { ret := if (resp rid buffer.length).nread = 0 then none
             else some (resp rid buffer.length).nread
      buffer := bufferSet buffer (resp rid buffer.length).data
      calls := ["plugin:fs|read"] }

/-- The SeekMode TS enum. -/
inductive SeekMode where
  | Start
  | Current
  | End
deriving DecidableEq, Repr

/-- The numeric encoding assigned by the enum declaration. -/
def SeekMode.toNat : SeekMode → Nat
  | .Start => 0
  | .Current => 1
  | .End => 2

/-- The invoke call made by FileHandle.seek: command, rid, offset, whence. -/
structure SeekCall where
  cmd : String
  rid : Nat
  offset : Int
  whence : Nat
deriving DecidableEq, Repr

/-- JS method FileHandle.seek(offset, whence): forwards its arguments to the
backend seek command unchanged. -/
def FileHandle.seek (rid : Nat) (offset : Int) (whence : SeekMode) : SeekCall :=
  { cmd := "plugin:fs|seek", rid := rid, offset := offset, whence := whence.toNat }

/-- Modelled from the spec: the backend seek primitive (Handle Registry,
spec 4.3) is not part of src. The new absolute offset is the given offset
taken relative to the start of the file, the current position, or the end of
the file, according to whence. -/
def seekAbs (pos size : Nat) (offset : Int) (whence : SeekMode) : Int :=
  match whence with
  | .Start => offset
  | .Current => (pos : Int) + offset
  | .End => (size : Int) + offset

/-- Modelled from the spec: seeking to a negative absolute offset fails
(none); otherwise the new absolute offset from the start is returned. -/
def seekBackend (pos size : Nat) (offset : Int) (whence : SeekMode) : Option Nat :=
  if seekAbs pos size offset whence < 0 then none
  else some (seekAbs pos size offset whence).toNat

/-- Errors of the path-resolution step. -/
inductive ResolveError where
  | invalidPath
  | pathTraversal
deriving DecidableEq, Repr

/-- Splits a character list into path segments at the / separator. -/
def splitSegs : List Char → List Char → List String
  | [], cur => [String.mk cur.reverse]
  | c :: rest, cur =>
    if c = '/' then String.mk cur.reverse :: splitSegs rest []
    else splitSegs rest (c :: cur)

/-- The / separated segments of a path string. -/
def segmentsOf (p : String) : List String :=
  splitSegs p.data []

/-- Whether a path string is absolute (begins with the separator). -/
def isAbsolutePath (p : String) : Bool :=
  match p.data with
  | [] => false
  | c :: _ => c = '/'

/-- Whether a path string contains a parent-directory segment. -/
def hasParentSeg (p : String) : Bool :=
  (segmentsOf p).contains ".."

/-- Modelled from the spec: the backend Path Resolver (spec 4.1) is not part
of src. Absolute inputs are rejected with InvalidPath and inputs containing a
parent-directory segment with PathTraversal, before the base root is joined
with the logical path; the function is pure, so rejection happens with no
I/O. -/
def resolve (root p : String) : Except ResolveError String :=
  if isAbsolutePath p then .error .invalidPath
  else if hasParentSeg p then .error .pathTraversal
  else .ok (root ++ "/" ++ p)

/-- Modelled from the spec: the Operation Dispatcher (spec 4.5) for any
single-path operation: resolve first, then run the OS primitive on the
resolved path. The second component records the resolved paths on which OS
I/O was performed. -/
def dispatchPathOp {α : Type} (osCall : String → α) (root p : String) :
    Except ResolveError α × List String :=
  match resolve root p with
  | .error e => (.error e, [])
  | .ok rp => (.ok (osCall rp), [rp])

/-- Errors of a dispatched backend operation. -/
inductive OpError where
  | resolveErr (e : ResolveError)
  | scopeViolation
  | notFound
deriving DecidableEq, Repr

/-- Modelled from the spec: resolution followed by the Scope Policy check
(spec 4.1 and 4.2); a denied path surfaces as ScopeViolation. -/
def resolveAuth (allow : String → Bool) (root p : String) :
    Except OpError String :=
  match resolve root p with
  | .error e => .error (.resolveErr e)
  | .ok rp => if allow rp then .ok rp else .error .scopeViolation

/-- A filesystem state for the mutation model: an association list from
absolute paths to file contents. -/
abbrev Fs := List (String × List Nat)

/-- Contents at a path, if the file exists. -/
def fsGet (fs : Fs) (p : String) : Option (List Nat) :=
  (fs.find? (fun e => e.1 = p)).map (fun e => e.2)

/-- Writes contents at a path, replacing any previous entry. -/
def fsPut (fs : Fs) (p : String) (v : List Nat) : Fs :=
  (p, v) :: fs.filter (fun e => e.1 ≠ p)

/-- Removes the entry at a path. -/
def fsDel (fs : Fs) (p : String) : Fs :=
  fs.filter (fun e => e.1 ≠ p)

/-- Modelled from the spec: the backend copy_file dispatch (spec 4.5, 8):
source and destination are both resolved and authorized before any OS
mutation; on any failure the returned filesystem is the input one,
unchanged. -/
def copyFileBackend (allow : String → Bool) (root : String) (fs : Fs)
    (src dst : String) : Except OpError Unit × Fs :=
  match resolveAuth allow root src with
  | .error e => (.error e, fs)
  | .ok s =>
    match resolveAuth allow root dst with
    | .error e => (.error e, fs)
    | .ok d =>
      match fsGet fs s with
      | none => (.error .notFound, fs)
      | some content => (.ok (), fsPut fs d content)

/-- Modelled from the spec: the backend rename dispatch (spec 4.5): both
paths are resolved and authorized before any OS mutation; on any failure the
returned filesystem is the input one, unchanged. -/
def renameBackend (allow : String → Bool) (root : String) (fs : Fs)
    (src dst : String) : Except OpError Unit × Fs :=
  match resolveAuth allow root src with
  | .error e => (.error e, fs)
  | .ok s =>
    match resolveAuth allow root dst with
    | .error e => (.error e, fs)
    | .ok d =>
      match fsGet fs s with
      | none => (.error .notFound, fs)
      | some content => (.ok (), fsPut (fsDel fs s) d content)

/-- The set of active watch session identifiers of the Watcher Manager. -/
abbrev WatchSessions := List Nat

/-- Modelled from the spec: the Directory Watcher Manager unwatch (spec 4.4)
is not part of src. Unwatching removes the session if present and succeeds
whether or not the session exists (idempotent no-op on unknown sessions). -/
def unwatchBackend (sessions : WatchSessions) (rid : Nat) :
    Except OpError WatchSessions :=
  .ok (sessions.filter (fun r => r ≠ rid))

/-- Modelled from the spec: events are delivered on a session channel only
while the session is active; a stopped session receives nothing. -/
def deliverEvent (sessions : WatchSessions) (rid : Nat) (ev : String) :
    Option String :=
  if rid ∈ sessions then some ev else none

/-- Caller-supplied watch options; none models an absent field. -/
structure WatchOptions where
  recursive : Option Bool := none
  delayMs : Option Nat := none
deriving DecidableEq, Repr

/-- The options object actually sent to the backend watch command; a delayMs
of none models the JS null, meaning immediate delivery. -/
structure BackendWatchOptions where
  recursive : Bool
  delayMs : Option Nat
deriving DecidableEq, Repr

/-- The object spread in watch: defaults recursive false and delayMs 2000,
then the caller options override field-wise. -/
def watchOpts (options : WatchOptions) : BackendWatchOptions :=
  { recursive := options.recursive.getD false
    delayMs :=
      match options.delayMs with
      | some d => some d
      | none => some 2000 }

/-- The object spread in watchImmediate: default recursive false, caller
options, then delayMs forced to null last, overriding the caller. -/
def watchImmediateOpts (options : WatchOptions) : BackendWatchOptions :=
  { recursive := options.recursive.getD false
    delayMs := none }

/-- State of a readTextFileLines iterator together with the modelled backend
line-reader: the iterator rid (null between iterations), the backend
sessions mapping a rid to its cursor (index of the next line), the next rid
the backend will allocate, and the trace of backend commands invoked. -/
structure LinesState where
  rid : Option Nat
  sessions : List (Nat × Nat)
  fresh : Nat
  calls : List String
deriving DecidableEq, Repr

/-- The cursor of a backend line-reader session. -/
def sessionsGet : List (Nat × Nat) → Nat → Nat
  | [], _ => 0
  | (a, c) :: rest, r => if a = r then c else sessionsGet rest r

/-- Updates the cursor of a backend line-reader session. -/
def sessionsPut (ss : List (Nat × Nat)) (r : Nat) (c : Nat) : List (Nat × Nat) :=
  (r, c) :: ss.filter (fun e => e.1 ≠ r)

/-- The iterator state readTextFileLines resolves to: rid null, and no
backend command has been invoked yet. -/
def linesInit : LinesState :=
  { rid := none, sessions := [], fresh := 0, calls := [] }

/-- JS function readTextFileLines(path, options): after the file-URL guard it
only builds the iterator object with rid null; no backend resource is
created until the first next() call. -/
def readTextFileLines (path : PathLike) : Except JsError LinesState :=
  if path.nonFileUrl then .error (.typeError "Must be a file URL.")
  else .ok linesInit

/-- The open step inside next(): if rid is null, invoke the lines command,
which (modelled from the spec: the Handle Registry's pending line-reader
cursor, spec 3) allocates a fresh session whose cursor is at the first
line. -/
def ensureRid (s : LinesState) : Nat × LinesState :=
  match s.rid with
  | some r => (r, s)
  | none =>
    (s.fresh,
     { rid := some s.fresh
       sessions := (s.fresh, 0) :: s.sessions
       fresh := s.fresh + 1
       calls := s.calls ++ ["plugin:fs|read_text_file_lines"] })

/-- JS next() of the readTextFileLines iterator over a file with the given
lines: open lazily if rid is null, invoke the next-line command (modelled
from the spec: returns the cursor line and advances, or reports done past
the last line), and on done reset rid to null and yield the empty string. -/
def linesNext (fileLines : List String) (s : LinesState) :
    (String × Bool) × LinesState :=
  match fileLines[sessionsGet (ensureRid s).2.sessions (ensureRid s).1]? with
  | some l =>
    ((l, false),
     { (ensureRid s).2 with
        sessions := sessionsPut (ensureRid s).2.sessions (ensureRid s).1
          (sessionsGet (ensureRid s).2.sessions (ensureRid s).1 + 1)
        calls := (ensureRid s).2.calls ++ ["plugin:fs|read_text_file_lines_next"] })
  | none =>
    (("", true),
     { (ensureRid s).2 with
        rid := none
        sessions := sessionsPut (ensureRid s).2.sessions (ensureRid s).1
          (sessionsGet (ensureRid s).2.sessions (ensureRid s).1 + 1)
        calls := (ensureRid s).2.calls ++ ["plugin:fs|read_text_file_lines_next"] })

/-- C4: for every open file handle, read with a zero-length buffer returns 0
immediately, leaves the buffer untouched, and never calls the backend read
primitive. -/
theorem read_zero_length_short_circuits (resp : Nat → Nat → ReadResp)
    (rid : Nat) (buffer : List Nat) (h : buffer.length = 0) :
    FileHandle.read resp rid buffer
      = { ret := some 0, buffer := buffer, calls := [] } := by
  simp [FileHandle.read, h]

/-- Witness for C4 at the empty buffer. -/
theorem read_zero_length_short_circuits_witness :
    ([] : List Nat).length = 0
    ∧ FileHandle.read (fun _ _ => { data := [], nread := 0 }) 1 []
        = { ret := some 0, buffer := [], calls := [] } :=
  ⟨rfl, read_zero_length_short_circuits (fun _ _ => { data := [], nread := 0 }) 1 [] rfl⟩

/-- C5: for every non-empty buffer, read performs one backend call, copies
the returned bytes into the front of the buffer, resolves to the null EOF
marker exactly when the backend reports 0 bytes read, and otherwise to the
positive count; the EOF marker is distinct from a zero-length success. -/
theorem read_eof_marker_iff_exhausted (resp : Nat → Nat → ReadResp)
    (rid : Nat) (buffer : List Nat) (h : buffer.length ≠ 0) :
    ((FileHandle.read resp rid buffer).ret = none
        ↔ (resp rid buffer.length).nread = 0)
    ∧ (0 < (resp rid buffer.length).nread →
        (FileHandle.read resp rid buffer).ret = some (resp rid buffer.length).nread)
    ∧ (FileHandle.read resp rid buffer).ret ≠ some 0
    ∧ (FileHandle.read resp rid buffer).buffer
        = bufferSet buffer (resp rid buffer.length).data
    ∧ (FileHandle.read resp rid buffer).calls = ["plugin:fs|read"] := by
  by_cases hn : (resp rid buffer.length).nread = 0 <;>
    simp [FileHandle.read, h, hn]

/-- Witness for C5: a 3-byte buffer against a backend that returns 2 bytes. -/
theorem read_eof_marker_iff_exhausted_witness :
    ([7, 7, 7] : List Nat).length ≠ 0
    ∧ (FileHandle.read (fun _ _ => { data := [1, 2], nread := 2 }) 1 [7, 7, 7]).ret
        = some 2
    ∧ (FileHandle.read (fun _ _ => { data := [1, 2], nread := 2 }) 1 [7, 7, 7]).buffer
        = [1, 2, 7] := by
  have h := read_eof_marker_iff_exhausted
    (fun _ _ => { data := [1, 2], nread := 2 }) 1 [7, 7, 7] (by decide)
  exact ⟨by decide, h.2.1 (by decide), by
    have hb := h.2.2.2.1
    simpa [bufferSet] using hb⟩

/-- C8: stat and lstat perform no file-URL check: every path argument,
including a URL of any protocol, is stringified and forwarded directly to
the backend command, never raising the TypeError. -/
theorem stat_lstat_forward_urls_unchecked (path : PathLike) :
    stat path = .ok { cmd := "plugin:fs|stat", args := [path.toStr] }
    ∧ lstat path = .ok { cmd := "plugin:fs|lstat", args := [path.toStr] }
    ∧ isErr (stat path) = false
    ∧ isErr (lstat path) = false :=
  ⟨rfl, rfl, rfl, rfl⟩

/-- C9: watch defaults the debounce delay to 2000 ms when the caller supplies
no delayMs and defaults recursive to false; watchImmediate always sends
delayMs null (immediate delivery) regardless of the caller's delayMs, and
also defaults recursive to false. -/
theorem watch_debounce_defaults (r : Option Bool) (d : Option Nat) :
    watchOpts { recursive := r, delayMs := none }
      = { recursive := r.getD false, delayMs := some 2000 }
    ∧ watchImmediateOpts { recursive := r, delayMs := d }
      = { recursive := r.getD false, delayMs := none }
    ∧ (watchOpts { recursive := none, delayMs := d }).recursive = false
    ∧ (watchImmediateOpts { recursive := none, delayMs := d }).recursive = false :=
  ⟨rfl, rfl, rfl, rfl⟩

/-- C1: for every input path that is absolute or contains a parent-directory
segment, and for every operation built on the dispatcher, resolution fails
with InvalidPath or PathTraversal and no OS I/O is performed on any resolved
path; the input is rejected, never clamped to a successful result. -/
theorem resolve_rejects_traversal_before_io {α : Type} (osCall : String → α)
    (root p : String)
    (h : isAbsolutePath p = true ∨ hasParentSeg p = true) :
    (dispatchPathOp osCall root p).2 = []
    ∧ ((dispatchPathOp osCall root p).1 = .error .invalidPath
       ∨ (dispatchPathOp osCall root p).1 = .error .pathTraversal) := by
  rcases h with h | h
  · simp [dispatchPathOp, resolve, h]
  · by_cases ha : isAbsolutePath p = true
    · simp [dispatchPathOp, resolve, ha]
    · simp [dispatchPathOp, resolve, ha, h]

/-- Witness for C1: an absolute input and a parent-directory input are both
rejected with no I/O. -/
theorem resolve_rejects_traversal_before_io_witness :
    ((dispatchPathOp (fun rp => rp) "base" "/etc/passwd").2 = []
      ∧ ((dispatchPathOp (fun rp => rp) "base" "/etc/passwd").1
            = .error .invalidPath
         ∨ (dispatchPathOp (fun rp => rp) "base" "/etc/passwd").1
            = .error .pathTraversal))
    ∧ ((dispatchPathOp (fun rp => rp) "base" "../secret").2 = []
      ∧ ((dispatchPathOp (fun rp => rp) "base" "../secret").1
            = .error .invalidPath
         ∨ (dispatchPathOp (fun rp => rp) "base" "../secret").1
            = .error .pathTraversal)) :=
  ⟨resolve_rejects_traversal_before_io (fun rp => rp) "base" "/etc/passwd"
      (Or.inl (by decide)),
   resolve_rejects_traversal_before_io (fun rp => rp) "base" "../secret"
      (Or.inr (by decide))⟩

/-- C2 as stated is false on the code: stat is a path-accepting operation,
yet given a URL whose protocol is not file it does not reject with the
TypeError but proceeds to the backend call. -/
theorem stat_accepts_non_file_url :
    ¬ (∀ op ∈ pathOps, ∀ p : PathLike, p.nonFileUrl = true →
        op.2 p = .error (.typeError "Must be a file URL.")) := by
  intro hall
  have hmem : ("stat", stat) ∈ pathOps := by simp [pathOps]
  have hx := hall ("stat", stat) hmem (.url "https:" "//example.com") (by decide)
  simp [stat] at hx

/-- C2 amended: every path-accepting operation except stat and lstat rejects
a URL argument with a non-file protocol by throwing TypeError "Must be a
file URL." before any backend call; copyFile and rename check both of their
path arguments, readTextFileLines checks its path, and watch checks every
path of its list. -/
theorem checked_ops_reject_non_file_url :
    (∀ op ∈ checkedPathOps, ∀ p : PathLike, p.nonFileUrl = true →
        op.2 p = .error (.typeError "Must be a file URL."))
    ∧ (∀ q r : PathLike, q.nonFileUrl = true ∨ r.nonFileUrl = true →
        copyFile q r = .error (.typeError "Must be a file URL.")
        ∧ rename q r = .error (.typeError "Must be a file URL."))
    ∧ (∀ p : PathLike, p.nonFileUrl = true →
        readTextFileLines p = .error (.typeError "Must be a file URL."))
    ∧ (∀ paths : List PathLike, (∃ p ∈ paths, p.nonFileUrl = true) →
        checkWatchPaths paths = .error (.typeError "Must be a file URL.")) := by
  refine ⟨?_, ?_, ?_, ?_⟩
  · intro op hop p hp
    fin_cases hop <;>
      simp [create, open', mkdir, readDir, readFile, readTextFile, remove,
        truncate, writeFile, writeTextFile, exists', hp]
  · intro q r hqr
    rcases hqr with h | h <;>
      exact ⟨by simp [copyFile, h], by simp [rename, h]⟩
  · intro p hp
    simp [readTextFileLines, hp]
  · intro paths
    induction paths with
    | nil =>
      rintro ⟨p, hp, _⟩
      cases hp
    | cons a as ih =>
      rintro ⟨p, hp, hnf⟩
      by_cases ha : a.nonFileUrl = true
      · simp [checkWatchPaths, ha]
      · have ha' : a.nonFileUrl = false := by
          cases hx : a.nonFileUrl
          · rfl
          · exact absurd hx ha
        rcases List.mem_cons.mp hp with rfl | hmem
        · exact absurd hnf ha
        · simpa [checkWatchPaths, ha'] using ih ⟨p, hmem, hnf⟩

/-- Witness for C2 amended: open rejects an https URL. -/
theorem checked_ops_reject_non_file_url_witness :
    (PathLike.url "https:" "//example.com").nonFileUrl = true
    ∧ open' (.url "https:" "//example.com")
        = .error (.typeError "Must be a file URL.") :=
  ⟨by decide,
   (checked_ops_reject_non_file_url).1 ("open", open') (by simp [checkedPathOps])
     (.url "https:" "//example.com") (by decide)⟩

/-- C3: copyFile and rename validate both path arguments before the single
backend call (either bad URL throws the TypeError before invoke), and the
modelled backend dispatch resolves and authorizes both source and
destination before any mutation: if either path is invalid or denied, the
operation fails and the filesystem is returned unchanged, so the source is
untouched and no partial destination file exists. -/
theorem copy_rename_validate_both_before_mutation
    (q r : PathLike) (allow : String → Bool) (root : String) (fs : Fs)
    (src dst : String) :
    (q.nonFileUrl = true ∨ r.nonFileUrl = true →
      copyFile q r = .error (.typeError "Must be a file URL.")
      ∧ rename q r = .error (.typeError "Must be a file URL."))
    ∧ (isErr (resolveAuth allow root src) = true
        ∨ isErr (resolveAuth allow root dst) = true →
      ((copyFileBackend allow root fs src dst).2 = fs
        ∧ isErr (copyFileBackend allow root fs src dst).1 = true)
      ∧ ((renameBackend allow root fs src dst).2 = fs
        ∧ isErr (renameBackend allow root fs src dst).1 = true)) := by
  constructor
  · intro h
    rcases h with h | h <;>
      exact ⟨by simp [copyFile, h], by simp [rename, h]⟩
  · intro h
    rcases hs : resolveAuth allow root src with e | s
    · simp [copyFileBackend, renameBackend, hs, isErr]
    · rcases hd : resolveAuth allow root dst with e | d
      · simp [copyFileBackend, renameBackend, hs, hd, isErr]
      · simp [hs, hd, isErr] at h

/-- Witness for C3: a deny-all scope leaves the filesystem unchanged, and a
bad source URL throws before invoke. -/
theorem copy_rename_validate_both_before_mutation_witness :
    (copyFileBackend (fun _ => false) "base" [("base/a", [1])] "a" "b").2
      = [("base/a", [1])]
    ∧ (renameBackend (fun _ => false) "base" [("base/a", [1])] "a" "b").2
      = [("base/a", [1])]
    ∧ copyFile (.url "https:" "//x") (.str "ok")
      = .error (.typeError "Must be a file URL.") := by
  have h := copy_rename_validate_both_before_mutation (.url "https:" "//x")
    (.str "ok") (fun _ => false) "base" [("base/a", [1])] "a" "b"
  exact ⟨(h.2 (Or.inl (by decide))).1.1, (h.2 (Or.inl (by decide))).2.1,
    (h.1 (Or.inl (by decide))).1⟩

/-- C6: seek whence values are exactly Start, Current and End, encoded 0, 1
and 2; FileHandle.seek forwards rid, offset and the encoded whence to the
backend; the modelled backend fails exactly when the resulting absolute
offset is negative, and otherwise returns the new absolute offset from the
start of the file. -/
theorem seek_modes_and_negative_offset (rid pos size : Nat) (offset : Int)
    (whence : SeekMode) :
    (SeekMode.toNat .Start = 0 ∧ SeekMode.toNat .Current = 1
      ∧ SeekMode.toNat .End = 2)
    ∧ (whence = .Start ∨ whence = .Current ∨ whence = .End)
    ∧ FileHandle.seek rid offset whence
        = { cmd := "plugin:fs|seek", rid := rid, offset := offset,
            whence := whence.toNat }
    ∧ (seekBackend pos size offset whence = none
        ↔ seekAbs pos size offset whence < 0)
    ∧ (∀ n : Nat, seekBackend pos size offset whence = some n →
        (n : Int) = seekAbs pos size offset whence) := by
  refine ⟨⟨rfl, rfl, rfl⟩, by cases whence <;> simp, rfl, ?_, ?_⟩
  · unfold seekBackend
    by_cases hneg : seekAbs pos size offset whence < 0 <;> simp [hneg]
  · intro n hn
    unfold seekBackend at hn
    by_cases hneg : seekAbs pos size offset whence < 0
    · simp [hneg] at hn
    · simp [hneg] at hn
      omega

/-- Witness for C6: seeking -2 from the end of an 11-byte file yields 9. -/
theorem seek_modes_and_negative_offset_witness :
    seekBackend 0 11 (-2) SeekMode.End = some 9
    ∧ ((9 : Nat) : Int) = seekAbs 0 11 (-2) SeekMode.End :=
  ⟨by decide,
   (seek_modes_and_negative_offset 1 0 11 (-2) SeekMode.End).2.2.2.2 9 (by decide)⟩

/-- C7: unwatch always succeeds, on unknown sessions included; unwatching an
already-unwatched session returns the same state (idempotence); and after an
unwatch no further event is delivered on that session's channel. -/
theorem unwatch_idempotent_no_events (sessions : WatchSessions) (rid : Nat)
    (ev : String) :
    unwatchBackend sessions rid = .ok (sessions.filter (fun r => r ≠ rid))
    ∧ unwatchBackend (sessions.filter (fun r => r ≠ rid)) rid
        = .ok (sessions.filter (fun r => r ≠ rid))
    ∧ deliverEvent (sessions.filter (fun r => r ≠ rid)) rid ev = none
    ∧ isErr (unwatchBackend sessions rid) = false := by
  have hmem : rid ∉ sessions.filter (fun r => r ≠ rid) := by
    intro hm
    have h2 := (List.mem_filter.mp hm).2
    simp at h2
  have hidem : (sessions.filter (fun r => r ≠ rid)).filter (fun r => r ≠ rid)
      = sessions.filter (fun r => r ≠ rid) :=
    List.filter_eq_self.mpr (fun a ha => (List.mem_filter.mp ha).2)
  refine ⟨rfl, ?_, ?_, rfl⟩
  · simp [unwatchBackend, hidem]
  · simp [deliverEvent, hmem]

/-- C10: the readTextFileLines iterator is lazy and restartable: creating it
performs no backend call and yields a state with rid null; whenever next()
reports done, the rid is reset to null and the value is the empty string;
and a next() from a null rid invokes the lines-open command followed by one
next-line command and, on a non-empty file, yields the first line, so a
finished iterator restarts from the start of the file. -/
theorem read_lines_lazy_restartable (path : PathLike) (fileLines : List String)
    (s : LinesState) (hp : path.nonFileUrl = false) :
    (readTextFileLines path = .ok linesInit
      ∧ linesInit.rid = none ∧ linesInit.calls = [])
    ∧ ((linesNext fileLines s).1.2 = true →
        (linesNext fileLines s).2.rid = none
        ∧ (linesNext fileLines s).1.1 = "")
    ∧ (s.rid = none →
        (linesNext fileLines s).2.calls
          = s.calls ++ ["plugin:fs|read_text_file_lines",
                        "plugin:fs|read_text_file_lines_next"]
        ∧ ∀ l rest, fileLines = l :: rest →
            (linesNext fileLines s).1 = (l, false)) := by
  refine ⟨⟨by simp [readTextFileLines, hp], rfl, rfl⟩, ?_, ?_⟩
  · intro hdone
    rcases hget : fileLines[sessionsGet (ensureRid s).2.sessions (ensureRid s).1]?
        with _ | l
    · constructor
      · simp [linesNext, hget]
      · simp [linesNext, hget]
    · exfalso
      simp [linesNext, hget] at hdone
  · intro hrid
    have he : ensureRid s =
        (s.fresh,
         { rid := some s.fresh
           sessions := (s.fresh, 0) :: s.sessions
           fresh := s.fresh + 1
           calls := s.calls ++ ["plugin:fs|read_text_file_lines"] }) := by
      unfold ensureRid
      rw [hrid]
    constructor
    · have hcur0 : sessionsGet ((s.fresh, 0) :: s.sessions) s.fresh = 0 := by
        simp [sessionsGet]
      rcases hget : fileLines[(0 : Nat)]? with _ | l <;>
        simp [linesNext, he, hcur0, hget, List.append_assoc]
    · intro l rest hfl
      have hcur : sessionsGet (ensureRid s).2.sessions (ensureRid s).1 = 0 := by
        rw [he]
        simp [sessionsGet]
      have hget : fileLines[sessionsGet (ensureRid s).2.sessions (ensureRid s).1]?
          = some l := by
        rw [hcur, hfl]
        simp
      simp [linesNext, hget]

/-- Witness for C10: a two-line file yields its first line from a fresh
iterator, and an empty file reports done with the empty string. -/
theorem read_lines_lazy_restartable_witness :
    (PathLike.str "app.conf").nonFileUrl = false
    ∧ (linesNext ["first", "second"] linesInit).1 = ("first", false)
    ∧ (linesNext [] linesInit).1.1 = "" := by
  have h1 := read_lines_lazy_restartable (.str "app.conf") ["first", "second"]
    linesInit rfl
  have h2 := read_lines_lazy_restartable (.str "app.conf") [] linesInit rfl
  exact ⟨rfl, (h1.2.2 rfl).2 "first" ["second"] rfl, (h2.2.1 (by decide)).2⟩

end TauriFs
